import Mathlib

/-!
Shallow embedding of `src/extension.ts` of the julia-vscode extension:
the language-server session manager (activation, configuration-change
handling, server launch, and status-notification routing).

Conventions of the embedding:
* the mutable module-level globals (`g_settings`, `g_languageClient`,
  `g_serverstatus`) become explicit state records threaded through step
  functions;
* asynchronous control flow (`await`, promise continuations) becomes either
  an effect trace emitted in source order, or — where interleaving with the
  event loop matters — a validity predicate on event schedules derived from
  the source's causal (await) structure;
* Session handles (`LanguageClient` instances) are identified by `Nat` ids,
  fresh per construction, matching the source's "a restart always produces a
  new handle" behaviour.
-/

namespace Extension

/-- Settings snapshot as inspected by `extension.ts`. The only field the
restart decision reads is `juliaExePath` (line 113); every other field of
`settings.ISettings` is opaque to this module and is modelled by the single
field `other`. -/
structure ISettings where
  juliaExePath : String
  other : String
deriving DecidableEq, Repr

/-- The notification type name constructed at line 28:
`new rpc.NotificationType<string, void>('window/setStatusBusy')`. -/
def g_serverBusyNotificationName : String := "window/setStatusBusy"

/-- The notification type name constructed at line 29:
`new rpc.NotificationType<string, void>('window/setStatusReady')`. -/
def g_serverReadyNotificationName : String := "window/setStatusReady"

/-- The status-bar text set at activation (line 47). -/
def busyStatusText : String := "Julia Language Server is busy"

/-- The single error message shown by `startLanguageServer` (lines 134 and 174). -/
def couldNotStartMsg : String :=
  "Could not start the julia language server. Make sure the configuration setting julia.executablePath points to the julia binary."

/-! ### configChanged (lines 99-125) -/

/-- The globals `configChanged` reads and writes: `g_settings` (assigned only
once, at activation line 42 — `configChanged` loads `newSettings` but never
stores it back) and `g_languageClient`. -/
structure ConfigState where
  g_settings : ISettings
  g_languageClient : Option Nat
deriving DecidableEq, Repr

/-- Externally visible effects of one `configChanged` call. -/
structure ConfigEffects where
  /-- the snapshot passed to `telemetry.onDidChangeConfiguration` and to the
  seven feature modules (lines 102-109); always the freshly loaded one. -/
  forwarded : ISettings
  /-- `g_languageClient.stop()` called on this client (line 119). -/
  stoppedClient : Option Nat
  /-- `startLanguageServer()` invoked (line 123). -/
  startedServer : Bool
deriving DecidableEq, Repr

/-- `configChanged` (lines 99-125): loads `newSettings`, forwards it to all
feature modules, then restarts the server iff
`g_settings.juliaExePath != newSettings.juliaExePath`. Faithful detail: the
source contains no `g_settings = newSettings` assignment, so the comparison
baseline stays the activation-time snapshot forever. -/
def configChanged (st : ConfigState) (newSettings : ISettings) :
    ConfigState × ConfigEffects :=
  let need_to_restart_server :=
    st.g_settings.juliaExePath != newSettings.juliaExePath
  if need_to_restart_server then
    match st.g_languageClient with
    | some c =>
        ({ st with g_languageClient := none },
         { forwarded := newSettings, stoppedClient := some c, startedServer := true })
    | none =>
        (st, { forwarded := newSettings, stoppedClient := none, startedServer := true })
  else
    (st, { forwarded := newSettings, stoppedClient := none, startedServer := false })

/-- Run a sequence of configuration changes. After a change that invoked
`startLanguageServer`, the launch (when it succeeds) installs a fresh client
id as `g_languageClient`; `fresh` supplies the ids. -/
def runConfigChanges (st : ConfigState) (fresh : Nat) :
    List ISettings → List ConfigEffects
  | [] => []
  | s :: rest =>
      let p := configChanged st s
      let st' :=
        if p.2.startedServer then { p.1 with g_languageClient := some fresh } else p.1
      p.2 :: runConfigChanges st' (fresh + 1) rest

/-! ### Process launch specification (lines 137-152) -/

/-- `path.join` as applied to the fixed, separator-free path components used
by `startLanguageServer` (lines 140-142). -/
def pathJoin (parts : List String) : String := String.intercalate "/" parts

/-- `serverArgsRun` (line 137). -/
def serverArgsRun (originalJuliaPkgDir pid : String) : List String :=
  ["--startup-file=no", "--history-file=no", "main.jl", originalJuliaPkgDir,
   "--debug=no", pid]

/-- `serverArgsDebug` (line 138). -/
def serverArgsDebug (originalJuliaPkgDir pid : String) : List String :=
  ["--startup-file=no", "--history-file=no", "main.jl", originalJuliaPkgDir,
   "--debug=yes", pid]

/-- The environment-variable overrides of `spawnOptions.env` (lines 141-144). -/
structure SpawnEnv where
  JULIA_PKGDIR : String
  HOME : String
deriving DecidableEq, Repr

/-- `process.env.HOME ? process.env.HOME : os.homedir()` (line 143): a
JavaScript truthiness test, under which both an unset `HOME` and a `HOME` set
to the empty string select the `os.homedir()` fallback. -/
def spawnEnvHome (processEnvHOME : Option String) (osHomedir : String) : String :=
  match processEnvHOME with
  | some h => if h = "" then osHomedir else h
  | none => osHomedir

/-- `spawnOptions.env` (lines 141-144). -/
def spawnOptionsEnv (extensionPath : String) (processEnvHOME : Option String)
    (osHomedir : String) : SpawnEnv :=
  { JULIA_PKGDIR := pathJoin [extensionPath, "scripts", "languageserver", "julia_pkgdir"],
    HOME := spawnEnvHome processEnvHOME osHomedir }

/-- `spawnOptions.cwd` (line 140). -/
def spawnCwd (extensionPath : String) : String :=
  pathJoin [extensionPath, "scripts", "languageserver"]

/-! ### startLanguageServer as an effect trace (lines 127-187)

`startLanguageServer` is an `async` function whose behaviour is determined by
the outcomes of its awaited operations; we record the externally visible
effects it performs, in source order, as a trace. -/

/-- Outcomes of the asynchronous collaborators of one launch attempt. -/
structure LaunchEnv where
  /-- result of `await packagepath.getPkgPath()` (line 131). -/
  pkgPathResult : Except String String
  /-- result of `await juliaexepath.getJuliaExePath()` (line 147). -/
  exePathResult : Except String String
  /-- whether `g_languageClient.start()` (line 170) throws. -/
  startThrows : Bool
  /-- whether `g_languageClient.onReady()` (line 178) resolves (else rejects). -/
  handshakeResolves : Bool
deriving Repr

/-- One externally visible effect of `startLanguageServer`. -/
inductive LaunchStep where
  /-- `vscode.window.showErrorMessage(msg)` -/
  | showError (msg : String)
  /-- `new LanguageClient(...)` evaluated — the process-launcher side is engaged. -/
  | constructClient (id : Nat)
  /-- `g_languageClient.start()` (line 170). -/
  | startClient (id : Nat)
  /-- `setLanguageClient(c)` — the broadcast to the seven feature modules
  (lines 87-97), called at line 171. -/
  | broadcastClient (c : Option Nat)
  /-- `g_languageClient.onNotification(<channel>, ...)` inside the `onReady`
  continuation (lines 179 and 183). -/
  | registerHandler (channel : String)
  /-- an exception or promise rejection escapes with no handler. -/
  | throwUncaught
deriving DecidableEq, Repr

/-- Effect trace of `startLanguageServer` (lines 127-187), in source order:

* lines 130-136: `getPkgPath` is awaited inside `try`; on rejection one error
  message is shown and the function returns;
* line 147: `getJuliaExePath` is awaited with **no** enclosing `try`; its
  rejection escapes the `async` function unhandled, with no message;
* line 164: the new `LanguageClient` is constructed (id `id`);
* lines 169-176: `start()` is called inside `try`; on a throw one message is
  shown and `g_languageClient = null` (a bare assignment, not a broadcast),
  after which line 178 dereferences the nulled `g_languageClient`
  (`g_languageClient.onReady()`), throwing an uncaught TypeError;
* line 171: on success `setLanguageClient(g_languageClient)` broadcasts the
  new handle to the feature modules;
* lines 178-186: the `onReady()` continuation registers the two notification
  handlers; the promise chain has no rejection handler, so a handshake
  rejection is unhandled and shows no message. -/
def startLanguageServerTrace (env : LaunchEnv) (id : Nat) : List LaunchStep :=
  match env.pkgPathResult with
  | .error _ => [.showError couldNotStartMsg]
  | .ok _ =>
    match env.exePathResult with
    | .error _ => [.throwUncaught]
    | .ok _ =>
      .constructClient id ::
      if env.startThrows then
        [.startClient id, .showError couldNotStartMsg, .throwUncaught]
      else
        .startClient id ::
        .broadcastClient (some id) ::
        if env.handshakeResolves then
          [.registerHandler g_serverBusyNotificationName,
           .registerHandler g_serverReadyNotificationName]
        else
          [.throwUncaught]

/-- Number of `showErrorMessage` calls in a launch trace. -/
def errorMessagesShown (tr : List LaunchStep) : Nat :=
  (tr.filter fun s => match s with | .showError _ => true | _ => false).length

/-- Whether the trace ever constructs a `LanguageClient` (i.e. engages the
process launcher). -/
def clientConstructed (tr : List LaunchStep) : Bool :=
  tr.any fun s => match s with | .constructClient _ => true | _ => false

/-- Whether an exception or rejection escapes the launch attempt unhandled. -/
def uncaughtEscapes (tr : List LaunchStep) : Bool :=
  tr.any fun s => match s with | .throwUncaught => true | _ => false

/-- The notification channels registered during a launch trace, in order. -/
def registeredChannels (tr : List LaunchStep) : List String :=
  tr.filterMap fun s => match s with | .registerHandler c => some c | _ => none

/-- The `setLanguageClient` broadcasts of a launch trace, in order. -/
def clientBroadcasts (tr : List LaunchStep) : List (Option Nat) :=
  tr.filterMap fun s => match s with | .broadcastClient c => some c | _ => none

/-! ### Event-loop schedules of a restart (configChanged lines 117-124
interleaved with the startLanguageServer it triggers, lines 127-171)

`configChanged`'s restart branch calls `g_languageClient.stop()` without
awaiting it and then calls the `async` `startLanguageServer()`. The host event
loop may therefore interleave the completion of the old client's stop with the
awaited steps of the new launch in any order consistent with the source's
causal structure, which is captured by `prereq` below. -/

/-- Events of one restart of a live client, interleaved by the event loop. -/
inductive REvt where
  /-- the synchronous restart turn (lines 117-124): `stop()` is *initiated* on
  the old client, `setLanguageClient(null)` runs, `startLanguageServer()` is
  invoked and suspends at its first `await`. -/
  | restartTurn
  /-- `await packagepath.getPkgPath()` (line 131) resumes. -/
  | pkgResolved
  /-- `await juliaexepath.getJuliaExePath()` (line 147) resumes. -/
  | exeResolved
  /-- the turn of lines 164-171: the new `LanguageClient` is constructed and
  started and becomes `g_languageClient`. -/
  | constructNew
  /-- the old client's `stop()` completes (connection closed, process down). -/
  | stopCompleted
deriving DecidableEq, BEq, Repr

/-- Causal prerequisites each event has in the source: each `await` resumes
only after the previous step of the same launch, while `stopCompleted` is
ordered only after its initiation in `restartTurn` — the source never awaits
`stop()`, so nothing else constrains it. -/
def prereq : REvt → List REvt
  | .restartTurn => []
  | .pkgResolved => [.restartTurn]
  | .exeResolved => [.pkgResolved]
  | .constructNew => [.exeResolved]
  | .stopCompleted => [.restartTurn]

def validFrom (done : List REvt) : List REvt → Bool
  | [] => true
  | e :: rest =>
      !done.contains e && (prereq e).all done.contains && validFrom (e :: done) rest

/-- An event-loop schedule the source admits: each event occurs at most once
and only after its causal prerequisites. -/
def validSchedule (tr : List REvt) : Bool := validFrom [] tr

/-- `a` occurs before the first occurrence of `b` in the schedule. -/
def occursBefore (a b : REvt) (tr : List REvt) : Bool :=
  (tr.takeWhile fun e => e != b).contains a

/-- Number of live (constructed, stop not yet completed) clients after a
schedule. The count starts at 1: the pre-existing client the configuration
change is about to stop. -/
def liveCountAfter (tr : List REvt) : Nat :=
  tr.foldl (fun n e =>
    match e with
    | .constructNew => n + 1
    | .stopCompleted => n - 1
    | _ => n) 1

/-! ### Status-display and notification routing (lines 44-48, 87-97, 117-121,
178-186)

A step machine over the globals touched by the notification handlers. The
handler bodies (lines 180 and 184) are `g_serverstatus.show()` and
`g_serverstatus.hide()` — they consult no session identity, so a frame reaches
its handler exactly when the handler was registered on that client's
connection (its `onReady` continuation ran) and the client's connection has
not yet finished closing. -/

/-- Events affecting the status display and the feature-module broadcasts. -/
inductive SEvt where
  /-- lines 164-171: a new `LanguageClient` with id `id` is constructed,
  started, and broadcast via `setLanguageClient(some id)`. -/
  | clientStarted (id : Nat)
  /-- lines 178-186: client `id`'s `onReady()` continuation runs, registering
  the busy and ready notification handlers on its connection. -/
  | handshakeReady (id : Nat)
  /-- lines 118-120: `configChanged`'s restart branch initiates `stop()` on
  client `id` and calls `setLanguageClient(null)`. -/
  | stopInitiated (id : Nat)
  /-- client `id`'s stop completes: its connection is down. -/
  | stopCompleted (id : Nat)
  /-- a `window/setStatusBusy` frame arrives on client `id`'s connection. -/
  | busyFrame (id : Nat)
  /-- a `window/setStatusReady` frame arrives on client `id`'s connection. -/
  | readyFrame (id : Nat)
deriving DecidableEq, BEq, Repr

/-- The globals of the display/routing machine. `statusShown = true` with the
busy text is the Busy display state; `statusShown = false` is Ready. -/
structure UIState where
  statusShown : Bool
  statusText : String
  g_languageClient : Option Nat
  /-- arguments of the `setLanguageClient` broadcasts to the feature modules,
  in order (lines 87-97). -/
  sessionChangedCalls : List (Option Nat)
  /-- clients whose `onReady` continuation has registered the two handlers. -/
  handlers : List Nat
  /-- clients whose stop has completed. -/
  closedClients : List Nat
deriving DecidableEq, Repr

/-- State established by activation's status-bar setup (lines 45-48), before
any launch: indicator shown with the busy text, no client, no broadcasts. -/
def initUIState : UIState :=
  { statusShown := true, statusText := busyStatusText, g_languageClient := none,
    sessionChangedCalls := [], handlers := [], closedClients := [] }

/-- A frame on client `id`'s connection reaches its registered handler iff the
handler exists and the connection is not yet fully closed. -/
def delivers (st : UIState) (id : Nat) : Bool :=
  st.handlers.contains id && !st.closedClients.contains id

def stepUI (st : UIState) : SEvt → UIState
  | .clientStarted id =>
      { st with g_languageClient := some id,
                sessionChangedCalls := st.sessionChangedCalls ++ [some id] }
  | .handshakeReady id => { st with handlers := id :: st.handlers }
  | .stopInitiated _ =>
      { st with g_languageClient := none,
                sessionChangedCalls := st.sessionChangedCalls ++ [none] }
  | .stopCompleted id => { st with closedClients := id :: st.closedClients }
  | .busyFrame id =>
      -- handler body, line 180: `g_serverstatus.show()` — no identity check
      if delivers st id then { st with statusShown := true } else st
  | .readyFrame id =>
      -- handler body, line 184: `g_serverstatus.hide()` — no identity check
      if delivers st id then { st with statusShown := false } else st

def runUI (st : UIState) (evts : List SEvt) : UIState := evts.foldl stepUI st

/-! ### activate (lines 31-81) -/

/-- The statements of `activate`, in source order. -/
inductive ActStep where
  | telemetryInit
  | traceActivate
  | startLsCrashServer
  | setContext
  | loadSettings
  | createStatusBar
  | showStatus
  | setStatusTextBusy
  | subscribeConfigChanged
  | setLanguageConfiguration
  | activateFeatureModules
  | startLanguageServerCall
  | telemetryPrompt
deriving DecidableEq, BEq, Repr

/-- The body of `activate` (lines 31-81) as its ordered statement list. -/
def activateSteps : List ActStep :=
  [.telemetryInit, .traceActivate, .startLsCrashServer, .setContext, .loadSettings,
   .createStatusBar, .showStatus, .setStatusTextBusy, .subscribeConfigChanged,
   .setLanguageConfiguration, .activateFeatureModules, .startLanguageServerCall,
   .telemetryPrompt]

/-- The activation-time state the claims inspect. -/
structure ActState where
  statusCreated : Bool
  statusShown : Bool
  statusText : String
  serverLaunchRequested : Bool
deriving DecidableEq, Repr

def stepAct (st : ActState) : ActStep → ActState
  | .createStatusBar => { st with statusCreated := true }
  | .showStatus => { st with statusShown := true }
  | .setStatusTextBusy => { st with statusText := busyStatusText }
  | .startLanguageServerCall => { st with serverLaunchRequested := true }
  | _ => st

def runAct (steps : List ActStep) : ActState :=
  steps.foldl stepAct { statusCreated := false, statusShown := false,
                        statusText := "", serverLaunchRequested := false }

/-! ## Theorems for the claims -/

/-- C1: counterexample evaluation. `configChanged` never stores the freshly
loaded snapshot back into `g_settings`, so each comparison baseline is the
activation-time snapshot, not the previously loaded one. With activation
executable path "A" and two successive changes both loading path "B" (the
second differing only in a non-executable field), the second change has an
unchanged executable path relative to the previous load, yet the code stops
and relaunches the server again; the new snapshots are forwarded regardless.
This refutes the claim that a change with an unchanged executable path leaves
the session untouched. -/
theorem configChanged_restarts_on_unchanged_exe_path :
    (ISettings.mk "B" "x").juliaExePath = (ISettings.mk "B" "y").juliaExePath ∧
    (runConfigChanges ⟨⟨"A", "x"⟩, some 0⟩ 1 [⟨"B", "x"⟩, ⟨"B", "y"⟩]).map
        (fun e => e.startedServer) = [true, true] ∧
    (runConfigChanges ⟨⟨"A", "x"⟩, some 0⟩ 1 [⟨"B", "x"⟩, ⟨"B", "y"⟩]).map
        (fun e => e.forwarded) = [⟨"B", "x"⟩, ⟨"B", "y"⟩] := by
  decide

/-- C2: counterexample evaluation. The restart branch of `configChanged`
initiates `g_languageClient.stop()` but never awaits it, so the event loop
admits the schedule in which the new launch runs through both of its awaits
and constructs (and starts) the new `LanguageClient` before the old client's
stop completes: stop-before-start does not always hold. -/
theorem construct_before_stop_completes :
    validSchedule
      [.restartTurn, .pkgResolved, .exeResolved, .constructNew, .stopCompleted] = true ∧
    occursBefore .constructNew .stopCompleted
      [.restartTurn, .pkgResolved, .exeResolved, .constructNew, .stopCompleted] = true := by
  decide

/-- C3: counterexample evaluation. Along the admitted schedule in which the
new client is constructed and started while the superseded client's stop has
not yet completed, two unclosed Session handles are live at once, so the
live-handle count exceeds 1. -/
theorem two_live_clients_possible :
    validSchedule [.restartTurn, .pkgResolved, .exeResolved, .constructNew] = true ∧
    liveCountAfter [.restartTurn, .pkgResolved, .exeResolved, .constructNew] = 2 := by
  decide

/-- C4: counterexample evaluation. The busy/ready handler bodies (lines 180
and 184) call `g_serverstatus.show()`/`hide()` with no session-identity
check. After client 0 is superseded by client 1 and the display shows Ready,
a late busy frame on stale client 0's still-closing connection flips the
display to Busy — a stale session's notification mutates the Status display
state. -/
theorem stale_busy_frame_mutates_status :
    (runUI initUIState [.clientStarted 0, .handshakeReady 0, .stopInitiated 0,
        .clientStarted 1, .handshakeReady 1, .readyFrame 1]).g_languageClient = some 1 ∧
    (runUI initUIState [.clientStarted 0, .handshakeReady 0, .stopInitiated 0,
        .clientStarted 1, .handshakeReady 1, .readyFrame 1]).statusShown = false ∧
    (runUI initUIState [.clientStarted 0, .handshakeReady 0, .stopInitiated 0,
        .clientStarted 1, .handshakeReady 1, .readyFrame 1,
        .busyFrame 0]).statusShown = true := by
  decide

/-- C5: counterexample evaluation. When `getPkgPath` resolves but the
executable-path resolver `getJuliaExePath` rejects, the process launcher is
indeed never engaged, but the `await` at line 147 sits outside every
`try`/`catch`, so the rejection escapes the `async` function unhandled and
zero user-facing error messages are produced — not exactly one. -/
theorem exe_resolver_rejection_shows_no_error :
    clientConstructed
      (startLanguageServerTrace ⟨.ok "/pkgdir", .error "no julia", false, true⟩ 0) = false ∧
    errorMessagesShown
      (startLanguageServerTrace ⟨.ok "/pkgdir", .error "no julia", false, true⟩ 0) = 0 ∧
    uncaughtEscapes
      (startLanguageServerTrace ⟨.ok "/pkgdir", .error "no julia", false, true⟩ 0) = true := by
  decide

/-- C6 counterexample: an ambient `HOME` that is present but equal to the
empty string is not used as the spawn environment's home directory — the
JavaScript truthiness test at line 143 treats it as absent and substitutes
`os.homedir()`. -/
theorem spawn_env_home_empty_string_counterexample :
    (Option.some "").isSome = true ∧
    (spawnOptionsEnv "/ext" (some "") "/home/user").HOME = "/home/user" ∧
    (spawnOptionsEnv "/ext" (some "") "/home/user").HOME ≠ "" := by
  decide

/-- C6 (amended): every launch attempt builds the argument list exactly as
`[--startup-file=no, --history-file=no, main.jl, <resolved-workspace-path>,
--debug=no|yes, <host-process-id>]`, and the spawn environment overrides
`JULIA_PKGDIR` to the server-local data directory and sets `HOME` to the
ambient `HOME` when it is present *and non-empty*, else to the `os.homedir()`
fallback. -/
theorem launch_args_and_env (pkgDir pid extPath homedir h : String)
    (hne : h ≠ "") :
    serverArgsRun pkgDir pid =
      ["--startup-file=no", "--history-file=no", "main.jl", pkgDir,
       "--debug=no", pid] ∧
    serverArgsDebug pkgDir pid =
      ["--startup-file=no", "--history-file=no", "main.jl", pkgDir,
       "--debug=yes", pid] ∧
    (spawnOptionsEnv extPath (some h) homedir).HOME = h ∧
    (spawnOptionsEnv extPath none homedir).HOME = homedir ∧
    (spawnOptionsEnv extPath (some h) homedir).JULIA_PKGDIR =
      pathJoin [extPath, "scripts", "languageserver", "julia_pkgdir"] := by
  refine ⟨rfl, rfl, ?_, rfl, rfl⟩
  simp [spawnOptionsEnv, spawnEnvHome, hne]

/-- C6 witness: the amended statement at a concrete non-empty ambient home. -/
theorem launch_args_and_env_witness :
    (spawnOptionsEnv "/ext" (some "/home/user") "/fallback").HOME = "/home/user" :=
  (launch_args_and_env "/pkg" "42" "/ext" "/fallback" "/home/user"
    (by decide)).2.2.1

/-- C7 counterexample: the two notification channel names the manager
subscribes to are not "status/busy" and "status/ready". -/
theorem notification_names_ne_spec_names :
    g_serverBusyNotificationName ≠ "status/busy" ∧
    g_serverReadyNotificationName ≠ "status/ready" := by
  decide

/-- C7 (amended): the two notification channels the manager subscribes to for
status updates are named exactly "window/setStatusBusy" and
"window/setStatusReady", registered in that order by the `onReady`
continuation of every successful launch. -/
theorem notification_channel_names (pkg exe : String) :
    registeredChannels (startLanguageServerTrace ⟨.ok pkg, .ok exe, false, true⟩ 0) =
      ["window/setStatusBusy", "window/setStatusReady"] := rfl

/-- C8: in a successful launch (client started and broadcast, handshake
resolved) followed by a busy frame and then a ready frame on that client's
connection, the Status display is Busy (shown) immediately after the first
frame and Ready (hidden) immediately after the second, and the feature
modules received exactly one `setLanguageClient` broadcast carrying the new
handle, already issued before either frame and unchanged by them. -/
theorem handshake_then_toggle (id : Nat) :
    (runUI initUIState [.clientStarted id, .handshakeReady id]).sessionChangedCalls
      = [some id] ∧
    (runUI initUIState
        [.clientStarted id, .handshakeReady id, .busyFrame id]).statusShown = true ∧
    (runUI initUIState
        [.clientStarted id, .handshakeReady id, .busyFrame id]).sessionChangedCalls
      = [some id] ∧
    (runUI initUIState
        [.clientStarted id, .handshakeReady id, .busyFrame id,
         .readyFrame id]).statusShown = false ∧
    (runUI initUIState
        [.clientStarted id, .handshakeReady id, .busyFrame id,
         .readyFrame id]).sessionChangedCalls = [some id] := by
  simp [runUI, stepUI, initUIState, delivers]

/-- C9: counterexample evaluation. Two launch failure modes violate the
"exactly one user-facing error" policy: a handshake rejection (the `onReady()`
promise chain has no rejection handler) surfaces zero messages and escapes
unhandled; and when `start()` throws, the single message is followed by a
dereference of the nulled `g_languageClient` at line 178, so an uncaught
TypeError escapes and the manager is not left cleanly idle. -/
theorem handshake_failure_shows_no_error :
    errorMessagesShown
      (startLanguageServerTrace ⟨.ok "/pkgdir", .ok "/usr/bin/julia", false, false⟩ 0) = 0 ∧
    uncaughtEscapes
      (startLanguageServerTrace ⟨.ok "/pkgdir", .ok "/usr/bin/julia", false, false⟩ 0) = true ∧
    errorMessagesShown
      (startLanguageServerTrace ⟨.ok "/pkgdir", .ok "/usr/bin/julia", true, true⟩ 0) = 1 ∧
    uncaughtEscapes
      (startLanguageServerTrace ⟨.ok "/pkgdir", .ok "/usr/bin/julia", true, true⟩ 0) = true := by
  decide

/-- C10: running `activate` up to (but excluding) the `startLanguageServer()`
call — i.e. before any server session exists and before any notification can
have been received — has already created the status-bar item, shown it, and
set its text to the busy text, so the initial Status display state is Busy,
established outside any notification handler; the state the notification
machine starts from agrees. -/
theorem activation_initial_status_busy :
    runAct (activateSteps.takeWhile fun s => s != ActStep.startLanguageServerCall) =
      { statusCreated := true, statusShown := true, statusText := busyStatusText,
        serverLaunchRequested := false } ∧
    initUIState.statusShown = true ∧
    initUIState.statusText = busyStatusText ∧
    initUIState.handlers = [] := by
  decide

end Extension
